import Mathlib

/-!
Verification of the quotation RAG service (src/app/embedding_service.py and
src/main.py): the document builder `create_document_text`, the index-identifier
selection in `add_quotation_item` / `bulk_add_quotation_items`, and the answer
synthesizer `generate_answer`, shallowly embedded over Python-dict records.
-/

namespace QMS

/-- A Python value as it occurs in quotation-record dictionaries: `None`, a
string, or a number. Numbers are modelled as integers; no claim inspects
fractional parts, and Python truthiness agrees (`0` and `0.0` are both falsy). -/
inductive Value where
  | none : Value
  | str : String → Value
  | int : Int → Value
deriving DecidableEq

/-- A Python dict with string keys, as an association list (the first binding
for a key wins; an actual dict has unique keys). -/
structure Record where
  entries : List (String × Value)
deriving DecidableEq

/-- The binding of key `k`, if the key is present in the dict. -/
def Record.find? (r : Record) (k : String) : Option Value :=
  (r.entries.find? (fun p => p.1 == k)).map (fun p => p.2)

/-- Python `d.get(k)`: the binding when the key is present, else `None`. -/
def Record.get (r : Record) (k : String) : Value :=
  (r.find? k).getD Value.none

/-- Python `d.get(k, default)`: the binding when the key is present (even when
the bound value is `None`), else the default. -/
def Record.getD (r : Record) (k : String) (d : Value) : Value :=
  (r.find? k).getD d

/-- Python truthiness: `None`, the empty string and zero are falsy. -/
def truthy : Value → Bool
  | Value.none => false
  | Value.str s => !(s == "")
  | Value.int n => !(n == 0)

/-- Python `str(v)`, as performed by f-string interpolation. -/
def pyStr : Value → String
  | Value.none => "None"
  | Value.str s => s
  | Value.int n => toString n

/-- `QuotationEmbeddingService.create_document_text`
(src/app/embedding_service.py lines 32-72). Each
`if quotation_item.get(key): doc_parts.append(f"<Label>: {...}")` statement
becomes a conditional append, and the final `" | ".join(doc_parts)` becomes
`String.intercalate " | "`. -/
def create_document_text (quotation_item : Record) : String :=
  let doc_parts : List String := []
  -- Customer information
  let doc_parts := if truthy (quotation_item.get "customername") then
    doc_parts ++ ["Customer: " ++ pyStr (quotation_item.get "customername")] else doc_parts
  let doc_parts := if truthy (quotation_item.get "customeremail") then
    doc_parts ++ ["Email: " ++ pyStr (quotation_item.get "customeremail")] else doc_parts
  let doc_parts := if truthy (quotation_item.get "customerphone") then
    doc_parts ++ ["Phone: " ++ pyStr (quotation_item.get "customerphone")] else doc_parts
  -- Quotation information
  let doc_parts := if truthy (quotation_item.get "quotationcode") then
    doc_parts ++ ["Quotation Code: " ++ pyStr (quotation_item.get "quotationcode")] else doc_parts
  let doc_parts := if truthy (quotation_item.get "quptationstatus") then
    doc_parts ++ ["Status: " ++ pyStr (quotation_item.get "quptationstatus")] else doc_parts
  let doc_parts := if truthy (quotation_item.get "quotationtotalamount") then
    doc_parts ++ ["Total Amount: " ++ pyStr (quotation_item.get "quotationtotalamount")] else doc_parts
  -- Item information
  let doc_parts := if truthy (quotation_item.get "itemname") then
    doc_parts ++ ["Item: " ++ pyStr (quotation_item.get "itemname")] else doc_parts
  let doc_parts := if truthy (quotation_item.get "itembrand") then
    doc_parts ++ ["Brand: " ++ pyStr (quotation_item.get "itembrand")] else doc_parts
  let doc_parts := if truthy (quotation_item.get "itemspecifications") then
    doc_parts ++ ["Specifications: " ++ pyStr (quotation_item.get "itemspecifications")] else doc_parts
  let doc_parts := if truthy (quotation_item.get "itemquantity") then
    doc_parts ++ ["Quantity: " ++ pyStr (quotation_item.get "itemquantity")] else doc_parts
  -- Pricing information
  let doc_parts := if truthy (quotation_item.get "itemsellingprice") then
    doc_parts ++ ["Selling Price: " ++ pyStr (quotation_item.get "itemsellingprice")] else doc_parts
  let doc_parts := if truthy (quotation_item.get "itemlistingprice") then
    doc_parts ++ ["Listing Price: " ++ pyStr (quotation_item.get "itemlistingprice")] else doc_parts
  -- Seller information
  let doc_parts := if truthy (quotation_item.get "sellername") then
    doc_parts ++ ["Seller: " ++ pyStr (quotation_item.get "sellername")] else doc_parts
  String.intercalate " | " doc_parts

/-- The spec's fixed field order (§4.1): key paired with its label, in the
order customer name, email, phone; quotation code, status, total amount; item
name, brand, specifications, quantity; selling price, listing price; seller. -/
def docFieldOrder : List (String × String) :=
  [("customername", "Customer"), ("customeremail", "Email"), ("customerphone", "Phone"),
   ("quotationcode", "Quotation Code"), ("quptationstatus", "Status"),
   ("quotationtotalamount", "Total Amount"),
   ("itemname", "Item"), ("itembrand", "Brand"), ("itemspecifications", "Specifications"),
   ("itemquantity", "Quantity"),
   ("itemsellingprice", "Selling Price"), ("itemlistingprice", "Listing Price"),
   ("sellername", "Seller")]

/-- Spec-side rendering of one field: `"<Label>: <value>"` when the field is
present (truthy), nothing otherwise. -/
def renderDocField (r : Record) : String × String → Option String
  | (k, label) => if truthy (r.get k) then some (label ++ ": " ++ pyStr (r.get k)) else Option.none

/-- Spec-side document builder (§4.1, written from the spec's words): render
each included field in the fixed order and join with `" | "`. -/
def buildDocumentSpec (r : Record) : String :=
  String.intercalate " | " (docFieldOrder.filterMap (renderDocField r))

/-- The conditional-append chain of `create_document_text`, as a fold over the
field table. -/
def docParts_fold (r : Record) : List String :=
  docFieldOrder.foldl
    (fun acc p => if truthy (r.get p.1) then acc ++ [p.2 ++ ": " ++ pyStr (r.get p.1)] else acc) []

lemma create_document_text_eq_fold (r : Record) :
    create_document_text r = String.intercalate " | " (docParts_fold r) := rfl

lemma foldl_cond_filterMap (r : Record) :
    ∀ (L : List (String × String)) (acc : List String),
      L.foldl (fun acc p =>
          if truthy (r.get p.1) then acc ++ [p.2 ++ ": " ++ pyStr (r.get p.1)] else acc) acc
        = acc ++ L.filterMap (renderDocField r) := by
  intro L
  induction L with
  | nil => intro acc; simp
  | cons p L ih =>
    intro acc
    cases p with
    | mk k label =>
      simp only [List.foldl_cons]
      rw [ih]
      by_cases h : truthy (r.get k)
      · simp [renderDocField, h]
      · simp [renderDocField, h]

/-- The document builder agrees with the spec-side builder on every record. -/
lemma doc_eq_spec (r : Record) : create_document_text r = buildDocumentSpec r := by
  rw [create_document_text_eq_fold, docParts_fold, foldl_cond_filterMap r docFieldOrder []]
  simp [buildDocumentSpec]

/-- The index identifier chosen by `add_quotation_item`
(src/app/embedding_service.py line 93):
`str(quotation_item.get('id', quotation_item.get('quotationcode', 'unknown')))`. -/
def add_item_id (quotation_item : Record) : String :=
  pyStr (quotation_item.getD "id" (quotation_item.getD "quotationcode" (Value.str "unknown")))

/-- The index identifier chosen for one record inside
`bulk_add_quotation_items` (src/app/embedding_service.py line 117), where the
running `ids` list has length `pos`:
`str(item.get('id', item.get('quotationcode', f'item_{len(ids)}')))`. -/
def bulk_item_id (item : Record) (pos : Nat) : String :=
  pyStr (item.getD "id" (item.getD "quotationcode" (Value.str ("item_" ++ toString pos))))

/-- One iteration of the `for item in quotation_items` loop of
`bulk_add_quotation_items`, restricted to the `ids` accumulator:
`ids.append(str(item.get('id', item.get('quotationcode', f'item_{len(ids)}'))))`. -/
def bulk_ids_step (ids : List String) (item : Record) : List String :=
  ids ++ [bulk_item_id item ids.length]

/-- The `ids` list that `bulk_add_quotation_items` passes to the index after
its loop over the batch. -/
def bulk_ids (quotation_items : List Record) : List String :=
  quotation_items.foldl bulk_ids_step []

/-- The identifiers produced for a batch when the running accumulator already
holds `pos` earlier identifiers (spec-side recursion used to reason about the
loop). -/
def bulk_ids_from (pos : Nat) : List Record → List String
  | [] => []
  | item :: rest => bulk_item_id item pos :: bulk_ids_from (pos + 1) rest

lemma foldl_bulk_ids_step (items : List Record) :
    ∀ (acc : List String),
      items.foldl bulk_ids_step acc = acc ++ bulk_ids_from acc.length items := by
  induction items with
  | nil => intro acc; simp [bulk_ids_from]
  | cons item rest ih =>
    intro acc
    simp only [List.foldl_cons, bulk_ids_step, ih, bulk_ids_from]
    simp [List.append_assoc]

lemma bulk_ids_eq_from (items : List Record) : bulk_ids items = bulk_ids_from 0 items := by
  simpa using foldl_bulk_ids_step items []

lemma bulk_ids_from_getD (d : Record) :
    ∀ (items : List Record) (pos i : Nat), i < items.length →
      (bulk_ids_from pos items).getD i "" = bulk_item_id (items.getD i d) (pos + i) := by
  intro items
  induction items with
  | nil => intro pos i hi; simp at hi
  | cons item rest ih =>
    intro pos i hi
    cases i with
    | zero => simp [bulk_ids_from]
    | succ j =>
      have hj : j < rest.length := by simpa using hi
      simp only [bulk_ids_from, List.getD_cons_succ]
      rw [ih (pos + 1) j hj]
      congr 1
      omega

/-! Decimal rendering of naturals (`f'item_{len(ids)}'` uses Python decimal
formatting; `toString` on `Nat` is Lean's decimal rendering). We prove it
injective by reading the digits back. -/

/-- Read a decimal digit string back into the number it denotes. -/
def digitsVal (cs : List Char) : Nat :=
  cs.foldl (fun a c => 10 * a + (c.toNat - 48)) 0

lemma toDigitsCore_append (fuel : Nat) :
    ∀ (n : Nat) (ds : List Char),
      Nat.toDigitsCore 10 fuel n ds = Nat.toDigitsCore 10 fuel n [] ++ ds := by
  induction fuel with
  | zero => intro n ds; simp [Nat.toDigitsCore]
  | succ fuel ih =>
    intro n ds
    simp only [Nat.toDigitsCore]
    split
    · simp
    · rw [ih (n / 10) (Nat.digitChar (n % 10) :: ds), ih (n / 10) [Nat.digitChar (n % 10)]]
      simp

lemma toDigitsCore_fuel :
    ∀ (n fuel₁ fuel₂ : Nat), n < fuel₁ → n < fuel₂ →
      Nat.toDigitsCore 10 fuel₁ n [] = Nat.toDigitsCore 10 fuel₂ n [] := by
  intro n
  induction n using Nat.strong_induction_on with
  | _ n ih =>
    intro fuel₁ fuel₂ h₁ h₂
    cases fuel₁ with
    | zero => omega
    | succ f₁ =>
      cases fuel₂ with
      | zero => omega
      | succ f₂ =>
        simp only [Nat.toDigitsCore]
        split
        · rfl
        · rename_i hdiv
          rw [toDigitsCore_append f₁, toDigitsCore_append f₂]
          have hlt : n / 10 < n := Nat.div_lt_self (by omega) (by omega)
          rw [ih (n / 10) hlt f₁ f₂ (by omega) (by omega)]

lemma digitChar_sub (m : Nat) (h : m < 10) : (Nat.digitChar m).toNat - 48 = m := by
  interval_cases m <;> rfl

lemma digitsVal_toDigitsCore :
    ∀ n : Nat, digitsVal (Nat.toDigitsCore 10 (n + 1) n []) = n := by
  intro n
  induction n using Nat.strong_induction_on with
  | _ n ih =>
    simp only [Nat.toDigitsCore]
    split
    · rename_i hdiv
      have hn : n < 10 := by omega
      simp only [digitsVal, List.foldl_cons, List.foldl_nil, Nat.mul_zero, Nat.zero_add]
      rw [digitChar_sub (n % 10) (by omega)]
      omega
    · rename_i hdiv
      rw [toDigitsCore_append]
      have hlt : n / 10 < n := Nat.div_lt_self (by omega) (by omega)
      rw [toDigitsCore_fuel (n / 10) n (n / 10 + 1) (by omega) (by omega)]
      simp only [digitsVal, List.foldl_append, List.foldl_cons, List.foldl_nil]
      have hrec := ih (n / 10) hlt
      simp only [digitsVal] at hrec
      rw [hrec, digitChar_sub (n % 10) (by omega)]
      omega

lemma natRepr_inj {a b : Nat} (h : Nat.repr a = Nat.repr b) : a = b := by
  have hdata := congrArg String.data h
  simp only [Nat.repr, List.asString] at hdata
  have ha := digitsVal_toDigitsCore a
  have hb := digitsVal_toDigitsCore b
  simp only [Nat.toDigits] at hdata
  rw [hdata] at ha
  rw [hb] at ha
  exact ha.symm

lemma natToString_inj {a b : Nat} (h : toString a = toString b) : a = b :=
  natRepr_inj h

lemma append_left_cancel_str {s t u : String} (h : s ++ t = s ++ u) : t = u := by
  apply String.ext
  have hd := congrArg String.data h
  simp only [String.data_append] at hd
  exact List.append_cancel_left hd

/-- The record with every binding of key `k` removed (used to state that a
field "contributes nothing": the document is the same as if it were absent). -/
def Record.eraseKey (r : Record) (k : String) : Record :=
  Record.mk (r.entries.filter (fun p => !(p.1 == k)))

lemma find?_filter_key (k q : String) :
    ∀ (l : List (String × Value)),
      ((l.filter (fun p => !(p.1 == k))).find? (fun p => p.1 == q)).map (fun p => p.2)
        = if q = k then Option.none else (l.find? (fun p => p.1 == q)).map (fun p => p.2) := by
  intro l
  induction l with
  | nil => simp only [List.filter_nil, List.find?_nil, Option.map_none]
           split <;> rfl
  | cons p rest ih =>
    by_cases h1 : p.1 = k
    · rw [List.filter_cons_of_neg (by simp [h1])]
      rw [ih]
      by_cases h2 : q = k
      · simp [h2]
      · have hpq : (p.1 == q) = false := by
          simp only [beq_eq_false_iff_ne]; rw [h1]; exact fun hkq => h2 hkq.symm
        simp [h2, List.find?_cons, hpq]
    · rw [List.filter_cons_of_pos (by simp [h1])]
      by_cases h2 : p.1 = q
      · have hpq : (p.1 == q) = true := by simpa using h2
        by_cases h3 : q = k
        · exact absurd (h2.trans h3) h1
        · simp [List.find?_cons, hpq, h3]
      · have hpq : (p.1 == q) = false := by simpa using h2
        simp only [List.find?_cons, hpq]
        exact ih

lemma find?_eraseKey (r : Record) (k q : String) :
    (r.eraseKey k).find? q = if q = k then Option.none else r.find? q := by
  have h := find?_filter_key k q r.entries
  simp only [Record.eraseKey, Record.find?]
  rw [h]

lemma get_eraseKey (r : Record) (k q : String) :
    (r.eraseKey k).get q = if q = k then Value.none else r.get q := by
  rw [Record.get, find?_eraseKey]
  by_cases h : q = k
  · simp [h]
  · simp [h, Record.get]

lemma filterMap_eq_on {α β : Type} (f g : α → Option β) :
    ∀ (l : List α), (∀ a ∈ l, f a = g a) → l.filterMap f = l.filterMap g := by
  intro l
  induction l with
  | nil => intro _; rfl
  | cons a l ih =>
    intro h
    rw [List.filterMap_cons, List.filterMap_cons, h a (List.mem_cons_self a l),
      ih (fun x hx => h x (List.mem_cons_of_mem a hx))]

/-- C1: `create_document_text` renders each included field as
`"<Label>: <value>"` and joins the rendered fields with `" | "` in the fixed
order of §4.1 (customer name, email, phone; quotation code, status, total
amount; item name, brand, specifications, quantity; selling price, listing
price; seller name), and the record
`{id:1, customername:"Acme", itemname:"Bearing", itemsellingprice:500}`
yields `"Customer: Acme | Item: Bearing | Selling Price: 500"`. -/
theorem create_document_text_follows_field_order :
    (∀ r : Record, create_document_text r = buildDocumentSpec r) ∧
    create_document_text
        (Record.mk [("id", Value.int 1), ("customername", Value.str "Acme"),
                    ("itemname", Value.str "Bearing"), ("itemsellingprice", Value.int 500)])
      = "Customer: Acme | Item: Bearing | Selling Price: 500" :=
  ⟨doc_eq_spec, by decide⟩

/-- C2 counterexample: a record whose `quotationtotalamount` key is present
with value exactly `0` builds the empty document — the claimed
`"Total Amount: 0"` part does not appear anywhere in the built text. -/
theorem zero_total_amount_not_rendered :
    create_document_text (Record.mk [("quotationtotalamount", Value.int 0)]) = "" ∧
    ¬ ∃ pre post : String,
        create_document_text (Record.mk [("quotationtotalamount", Value.int 0)])
          = pre ++ "Total Amount: 0" ++ post := by
  have h0 : create_document_text (Record.mk [("quotationtotalamount", Value.int 0)]) = "" := by
    decide
  refine ⟨h0, ?_⟩
  rintro ⟨pre, post, h⟩
  rw [h0] at h
  have hlen := congrArg String.length h
  simp only [String.length_append] at hlen
  have h15 : "Total Amount: 0".length = 15 := rfl
  have h00 : "".length = 0 := rfl
  rw [h15, h00] at hlen
  omega

/-- C2 amended: a numeric document field that is present with value exactly
zero is treated as absent by the Document Builder — the built document is
identical to that of the record with the field removed. -/
theorem zero_numeric_field_treated_absent (r : Record) (k : String)
    (h : r.get k = Value.int 0) :
    create_document_text r = create_document_text (r.eraseKey k) := by
  rw [doc_eq_spec, doc_eq_spec]
  unfold buildDocumentSpec
  congr 1
  apply filterMap_eq_on
  intro p _
  cases p with
  | mk q label =>
    by_cases hq : q = k
    · subst hq
      simp [renderDocField, get_eraseKey, h, truthy]
    · simp [renderDocField, get_eraseKey, hq]

/-- Witness for the amended C2 at a concrete record with `amount = 0`. -/
theorem zero_numeric_field_treated_absent_witness :
    (Record.mk [("customername", Value.str "Acme"),
                ("quotationtotalamount", Value.int 0)]).get "quotationtotalamount"
      = Value.int 0 ∧
    create_document_text
        (Record.mk [("customername", Value.str "Acme"), ("quotationtotalamount", Value.int 0)])
      = create_document_text
          ((Record.mk [("customername", Value.str "Acme"),
                       ("quotationtotalamount", Value.int 0)]).eraseKey "quotationtotalamount") :=
  ⟨by decide, zero_numeric_field_treated_absent _ _ (by decide)⟩

/-- C3: the identifier is `id`'s binding when the key is present, else
`quotationcode`'s binding when that key is present (`id=7` with
`quotationcode="Q1"` gives `"7"`, only `quotationcode="Q1"` gives `"Q1"`);
in a bulk batch a record with neither key gets the positional fallback
`item_<positional-index>`, and distinct positions give distinct fallbacks. -/
theorem identifier_precedence :
    (∀ (r : Record) (v : Value), r.find? "id" = some v → add_item_id r = pyStr v) ∧
    (∀ (r : Record) (v : Value), r.find? "id" = Option.none →
        r.find? "quotationcode" = some v → add_item_id r = pyStr v) ∧
    add_item_id (Record.mk [("id", Value.int 7), ("quotationcode", Value.str "Q1")]) = "7" ∧
    add_item_id (Record.mk [("quotationcode", Value.str "Q1")]) = "Q1" ∧
    (∀ (items : List Record) (i : Nat), i < items.length →
        (items.getD i (Record.mk [])).find? "id" = Option.none →
        (items.getD i (Record.mk [])).find? "quotationcode" = Option.none →
        (bulk_ids items).getD i "" = "item_" ++ toString i) ∧
    (∀ i j : Nat, i ≠ j → ("item_" ++ toString i : String) ≠ "item_" ++ toString j) := by
  refine ⟨?_, ?_, by decide, by decide, ?_, ?_⟩
  · intro r v h
    simp [add_item_id, Record.getD, h]
  · intro r v h1 h2
    simp [add_item_id, Record.getD, h1, h2]
  · intro items i hi h1 h2
    rw [bulk_ids_eq_from, bulk_ids_from_getD (Record.mk []) items 0 i hi]
    rw [show (0 : Nat) + i = i from by omega]
    generalize items.getD i (Record.mk []) = x at h1 h2 ⊢
    simp [bulk_item_id, Record.getD, h1, h2, pyStr]
  · intro i j hne h
    exact hne (natToString_inj (append_left_cancel_str h))

/-- Witness for C3 at concrete inputs: a one-record batch with neither `id`
nor `quotationcode` gets fallback identifier `item_0`, and the fallbacks at
positions 0 and 1 differ. -/
theorem identifier_precedence_witness :
    (bulk_ids [Record.mk [("itemname", Value.str "X")]]).getD 0 "" = "item_" ++ toString 0 ∧
    ("item_" ++ toString 0 : String) ≠ "item_" ++ toString 1 :=
  ⟨identifier_precedence.2.2.2.2.1 [Record.mk [("itemname", Value.str "X")]] 0
      (by decide) (by decide) (by decide),
   identifier_precedence.2.2.2.2.2 0 1 (by decide)⟩

/-! ## Query assembly and answer synthesis -/

/-- The shape of the external vector index's reply to `collection.query`
(ChromaDB nests each list once per query embedding). Distances are opaque to
this layer, so their type is a parameter. -/
structure ChromaQueryResponse (α : Type) where
  documents : List (List String)
  metadatas : List (List Record)
  distances : List (List α)

/-- The dictionary `QuotationEmbeddingService.query` returns
(src/app/embedding_service.py lines 148-154). -/
structure QueryResults (α : Type) where
  question : String
  documents : List String
  metadatas : List Record
  distances : List α
  count : Nat

/-- `QuotationEmbeddingService.query` after the external index call: each
field is `results['X'][0] if results['X'] else []` and
`count = len(results['documents'][0]) if results['documents'] else 0`. -/
def query {α : Type} (question : String) (res : ChromaQueryResponse α) : QueryResults α :=
  { question := question
    documents := match res.documents with | [] => [] | d :: _ => d
    metadatas := match res.metadatas with | [] => [] | m :: _ => m
    distances := match res.distances with | [] => [] | d :: _ => d
    count := match res.documents with | [] => 0 | d :: _ => d.length }

/-- The parts appended for one iteration of the result loop of
`generate_answer` (src/app/embedding_service.py lines 184-194), concatenated:
`f"\n{idx}. "` followed by the five conditional metadata parts. -/
def result_line (idx : Nat) (metadata : Record) : String :=
  ("\n" ++ toString idx ++ ". ")
  ++ (if truthy (metadata.get "quotationcode") then
        "Quotation " ++ pyStr (metadata.get "quotationcode") ++ ": " else "")
  ++ (if truthy (metadata.get "itemname") then
        pyStr (metadata.get "itemname") ++ " " else "")
  ++ (if truthy (metadata.get "customername") then
        "for " ++ pyStr (metadata.get "customername") ++ " " else "")
  ++ (if truthy (metadata.get "itemsellingprice") then
        "at ₹" ++ pyStr (metadata.get "itemsellingprice") ++ " " else "")
  ++ (if truthy (metadata.get "quptationstatus") then
        "(Status: " ++ pyStr (metadata.get "quptationstatus") ++ ")" else "")

/-- `QuotationEmbeddingService.generate_answer`
(src/app/embedding_service.py lines 170-196): calls `query`, returns the fixed
fallback when `count == 0`, else joins the header with one `result_line` per
`(doc, metadata, distance)` triple of `zip(...)`, enumerated from 1. -/
def generate_answer {α : Type} (question : String) (res : ChromaQueryResponse α) : String :=
  let results := query question res
  if results.count == 0 then
    "I couldn't find any relevant information for your question."
  else
    "Based on the quotation data, here's what I found:\n"
      ++ String.join
          (((results.documents.zip (results.metadatas.zip results.distances)).enum).map
            (fun p => result_line (p.1 + 1) p.2.2.1))

lemma join_cons (s : String) (l : List String) :
    String.join (s :: l) = s ++ String.join l := by
  apply String.ext; simp

lemma join_append_str (l1 l2 : List String) :
    String.join (l1 ++ l2) = String.join l1 ++ String.join l2 := by
  apply String.ext; simp

/-- C4: when retrieval returns zero results, `generate_answer` returns exactly
the fixed fallback sentence, whatever the question is. -/
theorem empty_results_fallback_answer (α : Type) (question : String)
    (res : ChromaQueryResponse α) (h : (query question res).count = 0) :
    generate_answer question res
      = "I couldn't find any relevant information for your question." := by
  simp only [generate_answer]
  rw [if_pos (by simp [h])]

/-- Witness for C4: the empty index reply yields count 0 and the fallback. -/
theorem empty_results_fallback_answer_witness :
    (query "any question"
        (ChromaQueryResponse.mk ([] : List (List String)) [] ([] : List (List Int)))).count = 0 ∧
    generate_answer "any question"
        (ChromaQueryResponse.mk ([] : List (List String)) [] ([] : List (List Int)))
      = "I couldn't find any relevant information for your question." :=
  ⟨rfl, empty_results_fallback_answer Int "any question" _ rfl⟩

lemma zip3_enum_map {α : Type} (f : Nat → Record → String) :
    ∀ (docs : List String) (metas : List Record) (dists : List α) (k : Nat),
      docs.length = metas.length → metas.length = dists.length →
      ((docs.zip (metas.zip dists)).enumFrom k).map (fun p => f p.1 p.2.2.1)
        = (List.range metas.length).map (fun i => f (k + i) (metas.getD i (Record.mk []))) := by
  intro docs
  induction docs with
  | nil =>
    intro metas dists k h1 _
    have : metas = [] := List.length_eq_zero.mp h1.symm
    subst this
    simp
  | cons doc docs ih =>
    intro metas dists k h1 h2
    cases metas with
    | nil => simp at h1
    | cons m ms =>
      cases dists with
      | nil => simp at h2
      | cons x xs =>
        simp only [List.zip_cons_cons, List.enumFrom_cons, List.map_cons]
        rw [ih ms xs (k + 1) (by simpa using h1) (by simpa using h2)]
        rw [List.length_cons, List.range_succ_eq_map]
        simp only [List.map_cons, List.map_map, List.getD_cons_zero, Nat.add_zero]
        congr 1
        apply List.map_congr_left
        intro i _
        simp only [Function.comp_apply, List.getD_cons_succ]
        congr 1
        omega

/-- C5: on a non-empty equal-length result triple, `generate_answer` emits the
header and then exactly one numbered entry per result, 1-indexed, in input
order; on the concrete ranked triple `[A, B, C]` the rendered answer lists
`1.`=A, `2.`=B, `3.`=C. -/
theorem generate_answer_preserves_ranking :
    (∀ (α : Type) (question : String) (docs : List String) (metas : List Record)
        (dists : List α),
        docs.length = metas.length → metas.length = dists.length → docs ≠ [] →
        generate_answer question (ChromaQueryResponse.mk [docs] [metas] [dists])
          = "Based on the quotation data, here's what I found:\n"
            ++ String.join ((List.range docs.length).map
                (fun i => result_line (i + 1) (metas.getD i (Record.mk []))))) ∧
    generate_answer "q"
        (ChromaQueryResponse.mk [["docA", "docB", "docC"]]
          [[Record.mk [("itemname", Value.str "A")], Record.mk [("itemname", Value.str "B")],
            Record.mk [("itemname", Value.str "C")]]]
          [[(1 : Int), 2, 3]])
      = "Based on the quotation data, here's what I found:\n\n1. A \n2. B \n3. C " := by
  constructor
  · intro α question docs metas dists h1 h2 hne
    simp only [generate_answer, query]
    rw [if_neg (by simpa using fun h => hne (List.length_eq_zero.mp h))]
    congr 1
    rw [List.enum, zip3_enum_map (fun i m => result_line (i + 1) m) docs metas dists 0 h1 h2, h1]
    congr 1
    apply List.map_congr_left
    intro i _
    simp
  · decide

/-- Witness for C5: apply the ranking theorem to a concrete two-result reply. -/
theorem generate_answer_preserves_ranking_witness :
    generate_answer "w"
        (ChromaQueryResponse.mk [["d1", "d2"]]
          [[Record.mk [("customername", Value.str "Jo")], Record.mk []]] [[(7 : Int), 9]])
      = "Based on the quotation data, here's what I found:\n"
        ++ String.join ((List.range (["d1", "d2"] : List String).length).map
            (fun i => result_line (i + 1)
              ([Record.mk [("customername", Value.str "Jo")], Record.mk []].getD i (Record.mk [])))) :=
  generate_answer_preserves_ranking.1 Int "w" ["d1", "d2"]
    [Record.mk [("customername", Value.str "Jo")], Record.mk []] [7, 9]
    (by decide) (by decide) (by decide)

/-- The spec's fixed phrasing table for one answer line (§4.3): metadata key
with the literal text before and after its value. -/
def linePieces : List (String × String × String) :=
  [("quotationcode", "Quotation ", ": "),
   ("itemname", "", " "),
   ("customername", "for ", " "),
   ("itemsellingprice", "at ₹", " "),
   ("quptationstatus", "(Status: ", ")")]

/-- Spec-side rendering of one phrasing piece: present fields contribute
`<before><value><after>`, absent fields contribute nothing. -/
def renderLinePiece (m : Record) : String × String × String → Option String
  | (k, before, after) =>
    if truthy (m.get k) then some (before ++ pyStr (m.get k) ++ after) else Option.none

/-- Spec-side answer line (§4.3, written from the spec's words): `"<n>. "` on
a new line, then the present pieces concatenated in the fixed order with no
other separators. -/
def resultLineSpec (n : Nat) (m : Record) : String :=
  "\n" ++ toString n ++ ". " ++ String.join (linePieces.filterMap (renderLinePiece m))

lemma filterMap_cons_toList {α β : Type} (f : α → Option β) (a : α) (l : List α) :
    List.filterMap f (a :: l) = (f a).toList ++ List.filterMap f l := by
  cases h : f a <;> simp [h]

lemma join_toList_ite (c : Prop) [Decidable c] (s : String) :
    String.join (if c then some s else Option.none).toList = if c then s else "" := by
  split
  · apply String.ext; simp
  · rfl

/-- C6: each result line is built from exactly the present metadata fields, in
the fixed order quotationcode, itemname, customername, itemsellingprice,
quptationstatus, with the spec's fixed phrasing and no other separators. -/
theorem result_line_fixed_phrasing (n : Nat) (m : Record) :
    result_line n m = resultLineSpec n m := by
  simp only [resultLineSpec, linePieces, filterMap_cons_toList, List.filterMap_nil,
    List.append_nil, join_append_str, join_toList_ite, renderLinePiece, result_line]
  simp [String.append_assoc]

lemma zipmap_dist_irrel {α : Type} (f : Nat → Record → String) :
    ∀ (docs : List String) (metas : List Record) (d1 d2 : List α) (k : Nat),
      d1.length = d2.length →
      ((docs.zip (metas.zip d1)).enumFrom k).map (fun p => f p.1 p.2.2.1)
        = ((docs.zip (metas.zip d2)).enumFrom k).map (fun p => f p.1 p.2.2.1) := by
  intro docs
  induction docs with
  | nil => intro metas d1 d2 k _; simp
  | cons doc docs ih =>
    intro metas d1 d2 k h
    cases metas with
    | nil => simp
    | cons m ms =>
      cases d1 with
      | nil =>
        cases d2 with
        | nil => rfl
        | cons y ys => simp at h
      | cons x xs =>
        cases d2 with
        | nil => simp at h
        | cons y ys =>
          simp only [List.zip_cons_cons, List.enumFrom_cons, List.map_cons]
          rw [ih ms xs ys (k + 1) (by simpa using h)]

/-- C8: two index replies that agree on documents and metadatas, and whose
assembled distance lists have the same length, produce the identical answer —
`generate_answer` never inspects a distance value and renders none. -/
theorem generate_answer_distance_noninterference (α : Type) (question : String)
    (res1 res2 : ChromaQueryResponse α)
    (hd : res1.documents = res2.documents) (hm : res1.metadatas = res2.metadatas)
    (hl : (query question res1).distances.length = (query question res2).distances.length) :
    generate_answer question res1 = generate_answer question res2 := by
  obtain ⟨D1, M1, X1⟩ := res1
  obtain ⟨D2, M2, X2⟩ := res2
  simp only at hd hm
  subst hd; subst hm
  simp only [generate_answer, query] at hl ⊢
  by_cases h0 : ((match D1 with | [] => 0 | d :: _ => d.length) == 0) = true
  · rw [if_pos h0, if_pos h0]
  · rw [if_neg h0, if_neg h0]
    simp only [List.enum]
    exact congrArg
      (fun l => "Based on the quotation data, here's what I found:\n" ++ String.join l)
      (zipmap_dist_irrel (fun i m => result_line (i + 1) m) _ _ _ _ 0 hl)

/-- Witness for C8: two replies differing only in the distance value give the
same rendered answer. -/
theorem generate_answer_distance_noninterference_witness :
    generate_answer "w"
        (ChromaQueryResponse.mk [["d"]] [[Record.mk [("itemname", Value.str "A")]]] [[(5 : Int)]])
      = generate_answer "w"
        (ChromaQueryResponse.mk [["d"]] [[Record.mk [("itemname", Value.str "A")]]] [[(9 : Int)]]) :=
  generate_answer_distance_noninterference Int "w" _ _ rfl rfl rfl

/-! ## The add path and its error propagation -/

/-- A Python exception as observed by the caller: its message text. -/
structure PyError where
  msg : String
deriving DecidableEq

/-- `QuotationEmbeddingService.add_quotation_item`
(src/app/embedding_service.py lines 74-98), with the external embedding model
(`self.model.encode`) and the index write (`self.collection.add`) passed in as
fallible collaborators. The `try/except` block logs and then bare-`raise`s, so
any failure flows to the caller unchanged; `collection_add` receives the
embedding, the document, the metadata record and the identifier. -/
def add_quotation_item {E V : Type} (encode : String → Except E V)
    (collection_add : V → String → Record → String → Except E Unit)
    (quotation_item : Record) : Except E Unit :=
  let doc_text := create_document_text quotation_item
  match encode doc_text with
  | Except.error e => Except.error e
  | Except.ok embedding =>
    collection_add embedding doc_text quotation_item (add_item_id quotation_item)

/-- C7 counterexample: an embedding failure with message `"boom"` on a record
with `id=7` reaches the caller as exactly the original error — nothing is
wrapped into an index-write error type and the identifier `7` is not attached
anywhere in what the caller receives. -/
theorem error_propagated_unwrapped_cex :
    add_quotation_item (fun _ => Except.error (PyError.mk "boom") : String → Except PyError String)
        (fun _ _ _ _ => Except.ok ()) (Record.mk [("id", Value.int 7)])
      = Except.error (PyError.mk "boom") ∧
    ¬ ∃ pre post : String, "boom" = pre ++ "7" ++ post := by
  refine ⟨rfl, ?_⟩
  rintro ⟨pre, post, h⟩
  have h7 : '7' ∈ (pre ++ "7" ++ post).data := by simp
  rw [← h] at h7
  simp at h7

/-- C7 amended: any failure of the embedding call or the index write inside
`add_quotation_item` is propagated to the caller unmodified (the original
exception, with no identifier attached and no wrapping), and a failure is
never swallowed: the call succeeds only when both collaborators succeed. -/
theorem add_failure_propagates_original {E V : Type} (encode : String → Except E V)
    (collection_add : V → String → Record → String → Except E Unit) (r : Record) (e : E) :
    (encode (create_document_text r) = Except.error e →
      add_quotation_item encode collection_add r = Except.error e) ∧
    (∀ v, encode (create_document_text r) = Except.ok v →
      add_quotation_item encode collection_add r
        = collection_add v (create_document_text r) r (add_item_id r)) := by
  constructor
  · intro h
    simp [add_quotation_item, h]
  · intro v h
    simp [add_quotation_item, h]

/-- Witness for the amended C7: an index-write failure reaches the caller
as-is on a concrete record. -/
theorem add_failure_propagates_original_witness :
    (fun _ => Except.ok "vec" : String → Except PyError String)
        (create_document_text (Record.mk [("id", Value.int 7)])) = Except.ok "vec" ∧
    add_quotation_item (fun _ => Except.ok "vec")
        (fun _ _ _ _ => Except.error (PyError.mk "index down"))
        (Record.mk [("id", Value.int 7)])
      = Except.error (PyError.mk "index down") :=
  ⟨rfl,
    ((add_failure_propagates_original (fun _ => Except.ok "vec")
        (fun _ _ _ _ => Except.error (PyError.mk "index down"))
        (Record.mk [("id", Value.int 7)]) (PyError.mk "unused")).2 "vec" rfl).trans rfl⟩

/-- The thirteen keys `create_document_text` looks at. -/
def docKeys : List String := docFieldOrder.map (fun p => p.1)

/-- C9: a record in which every one of the thirteen document fields is absent,
`None`, empty, or zero builds the empty document, and `add_quotation_item`
still embeds and upserts this empty document (with the usual identifier)
instead of rejecting the record. -/
theorem empty_record_embedded (r : Record)
    (h : ∀ k ∈ docKeys,
        r.get k = Value.none ∨ r.get k = Value.str "" ∨ r.get k = Value.int 0) :
    create_document_text r = "" ∧
    ∀ (E V : Type) (encode : String → Except E V)
      (collection_add : V → String → Record → String → Except E Unit),
      add_quotation_item encode collection_add r
        = (match encode "" with
           | Except.error e => Except.error e
           | Except.ok v => collection_add v "" r (add_item_id r)) := by
  have tfalse : ∀ k ∈ docKeys, truthy (r.get k) = false := by
    intro k hk
    rcases h k hk with h' | h' | h' <;> simp [h', truthy]
  have hdoc : create_document_text r = "" := by
    rw [doc_eq_spec]
    unfold buildDocumentSpec
    have hnil : docFieldOrder.filterMap (renderDocField r) = [] := by
      rw [List.filterMap_eq_nil_iff]
      intro p hp
      cases p with
      | mk k label =>
        have hk : k ∈ docKeys := by
          simp only [docKeys]
          exact List.mem_map_of_mem (fun p => p.1) hp
        simp [renderDocField, tfalse k hk]
    rw [hnil]
    rfl
  refine ⟨hdoc, ?_⟩
  intro E V encode collection_add
  simp only [add_quotation_item, hdoc]

/-- Witness for C9: a record with only empty/zero/None document fields builds
`""` and is still upserted successfully. -/
theorem empty_record_embedded_witness :
    create_document_text
        (Record.mk [("customername", Value.str ""), ("quotationtotalamount", Value.int 0),
                    ("itemname", Value.none)]) = "" ∧
    add_quotation_item (fun s => Except.ok s : String → Except PyError String)
        (fun _ _ _ _ => Except.ok ())
        (Record.mk [("customername", Value.str ""), ("quotationtotalamount", Value.int 0),
                    ("itemname", Value.none)])
      = Except.ok () :=
  ⟨(empty_record_embedded _ (by decide)).1,
   ((empty_record_embedded _ (by decide)).2 PyError String _ _).trans rfl⟩

/-! ## The HTTP facade's serialization (src/main.py) -/

/-- `None`-or-string field of the pydantic model, as the dict value that
`item.dict()` produces. -/
def optStr : Option String → Value
  | Option.none => Value.none
  | some s => Value.str s

/-- `None`-or-number field of the pydantic model, as the dict value that
`item.dict()` produces (numbers modelled as integers). -/
def optInt : Option Int → Value
  | Option.none => Value.none
  | some n => Value.int n

/-- The pydantic request model `QuotationItemCreate` of src/main.py
(lines 32-65): every field optional, with the model's defaults applied by the
caller that constructs a value of it. -/
structure QuotationItemCreate where
  id : Option Int
  customername : Option String
  customerphone : Option String
  customeremail : Option String
  customerid : Option Int
  customercode : Option String
  quotationid : Option Int
  quotationcode : Option String
  quptationstatus : Option String
  quotationtotalamount : Option Int
  quotationtermsconditions : Option String
  quotationsellerremarks : Option String
  quotationissuedby : Option String
  quotationcreatedat : Option String
  itemname : Option String
  itemspecifications : Option String
  itembrand : Option String
  itemquantity : Option Int
  itemdeliverydate : Option String
  itempricedemanded : Option String
  itempricevalidtill : Option String
  itemlistingprice : Option Int
  itemsellerdiscount : Option Int
  itemcustomerdiscount : Option Int
  itempurchaseprice : Option Int
  itemsellingprice : Option Int
  itemproductid : Option Int
  itemhsncode : Option String
  itemuom : Option String
  itemtaxpercent : Option String
  sellername : Option String
  sellerphone : Option String

/-- `item.dict()` as called by the `POST /quotations/add` handler
(src/main.py line 97): every model field is serialized, so every key is
present in the resulting dict, with `None` for omitted fields. -/
def QuotationItemCreate.dict (item : QuotationItemCreate) : Record :=
  Record.mk
    [("id", optInt item.id),
     ("customername", optStr item.customername),
     ("customerphone", optStr item.customerphone),
     ("customeremail", optStr item.customeremail),
     ("customerid", optInt item.customerid),
     ("customercode", optStr item.customercode),
     ("quotationid", optInt item.quotationid),
     ("quotationcode", optStr item.quotationcode),
     ("quptationstatus", optStr item.quptationstatus),
     ("quotationtotalamount", optInt item.quotationtotalamount),
     ("quotationtermsconditions", optStr item.quotationtermsconditions),
     ("quotationsellerremarks", optStr item.quotationsellerremarks),
     ("quotationissuedby", optStr item.quotationissuedby),
     ("quotationcreatedat", optStr item.quotationcreatedat),
     ("itemname", optStr item.itemname),
     ("itemspecifications", optStr item.itemspecifications),
     ("itembrand", optStr item.itembrand),
     ("itemquantity", optInt item.itemquantity),
     ("itemdeliverydate", optStr item.itemdeliverydate),
     ("itempricedemanded", optStr item.itempricedemanded),
     ("itempricevalidtill", optStr item.itempricevalidtill),
     ("itemlistingprice", optInt item.itemlistingprice),
     ("itemsellerdiscount", optInt item.itemsellerdiscount),
     ("itemcustomerdiscount", optInt item.itemcustomerdiscount),
     ("itempurchaseprice", optInt item.itempurchaseprice),
     ("itemsellingprice", optInt item.itemsellingprice),
     ("itemproductid", optInt item.itemproductid),
     ("itemhsncode", optStr item.itemhsncode),
     ("itemuom", optStr item.itemuom),
     ("itemtaxpercent", optStr item.itemtaxpercent),
     ("sellername", optStr item.sellername),
     ("sellerphone", optStr item.sellerphone)]

/-- C10: a request serialized by the facade always carries the key `id`, so
when the request omitted `id` (its value is `None`), `add_quotation_item`
chooses the string `"None"` as the index identifier — whatever the
`quotationcode` is. -/
theorem id_key_none_gives_none_identifier (item : QuotationItemCreate)
    (h : item.id = Option.none) :
    add_item_id item.dict = "None" := by
  simp [add_item_id, Record.getD, Record.find?, QuotationItemCreate.dict, List.find?_cons,
    h, optInt, pyStr]

/-- Witness for C10: a concrete request with `id` omitted and
`quotationcode="Q1"` still gets identifier `"None"`. -/
theorem id_key_none_gives_none_identifier_witness :
    add_item_id
        (QuotationItemCreate.dict
          ⟨Option.none, Option.none, Option.none, Option.none, some 0, Option.none, some 0,
           some "Q1", Option.none, some 0, Option.none, Option.none, some "indispare",
           Option.none, Option.none, Option.none, Option.none, Option.none, Option.none,
           Option.none, Option.none, some 0, some 0, some 0, some 0, some 0, Option.none,
           Option.none, Option.none, some "18", Option.none, Option.none⟩)
      = "None" :=
  id_key_none_gives_none_identifier _ rfl

end QMS
